import Mathlib

/-!
Verification development for the Pipeliner→Asana webhook relay
(`src/index.js`, with the panel-shop variant in `src/unnamed/part_000`).

The JavaScript source is shallowly embedded: pure helpers become Lean
functions on `Option`-typed payload fields (JS truthiness is modelled
explicitly), and the side-effecting orchestration becomes explicit state
passing over a trace of outbound API calls, with an environment oracle
assigning each outbound call a success or failure outcome.
-/

/-- JS truthiness of an optional string field: `undefined`/missing and the
empty string are falsy, every other string is truthy. -/
def strTruthy : Option String → Bool
  | none => false
  | some s => s != ""

/-- JS truthiness of `data.value && data.value > 0` (used by
`formatProjectName`): the value must be present, nonzero (truthy) and
positive. -/
def valueTruthyPos : Option Int → Bool
  | none => false
  | some v => (v != 0) && decide (0 < v)

/-- The webhook payload's `data` object. All fields are optional, as in the
untyped JS payload. Fields that feed only the notes text
(`probability`, `stage`, `closeDate`, `ownerName`, `description`, ...) are
not modelled: `formatProjectNotes` embeds the wall-clock time and no claim
refers to it. Monetary values are integers in every observed payload. -/
structure PipelinerData where
  id : Option String := none
  name : Option String := none
  accountName : Option String := none
  jobNumber : Option String := none
  value : Option Int := none
  subject : Option String := none
  relatedOpportunityId : Option String := none
  opportunityId : Option String := none

/-- Environment-derived configuration (`config.asana`). Only the access
token influences the modelled control flow; `workspaceId` / `teamId` only
add payload fields to the outbound request body. -/
structure Config where
  accessToken : Option String := none

/- ===================== formatNumber (src/index.js:477-479) ============= -/

/-- JS `\w` (ASCII word character), used by the `\B` boundary assertion in
`formatNumber`'s regex. -/
def isWordChar (c : Char) : Bool :=
  c.isAlphanum || c == '_'

/-- Length of the maximal digit run at the head of the list: the number of
digits the lookahead `(\d{3})+(?!\d)` can see from this position. -/
def digitPrefixLen : List Char → Nat
  | [] => 0
  | c :: cs => if c.isDigit then digitPrefixLen cs + 1 else 0

/-- One pass of `str.replace(/\B(?=(\d{3})+(?!\d))/g, ",")`, walking the
gaps between `p` (previous char) and the head of the remaining list.
A comma is inserted at a gap iff the gap is a non-boundary (`\B`: both
sides have equal word-char status) and the digit run starting there has
length a positive multiple of three followed by a non-digit (the
backtracking semantics of `(\d{3})+(?!\d)`). -/
def groupAux : Char → List Char → List Char
  | _, [] => []
  | p, c :: cs =>
    let d := digitPrefixLen (c :: cs)
    if (isWordChar p == isWordChar c) && (decide (3 ≤ d) && (d % 3 == 0)) then
      ',' :: c :: groupAux c cs
    else
      c :: groupAux c cs

/-- `str.replace(/\B(?=(\d{3})+(?!\d))/g, ",")`. The regex can never match
at position 0 (`\B` at the string start needs a non-word first char, the
lookahead needs a digit), so only the gaps after the head are examined. -/
def groupDigits (str : String) : String :=
  match str.data with
  | [] => ""
  | c :: cs => String.mk (c :: groupAux c cs)

/-- `formatNumber(num)` (src/index.js:477-479) on an integer input:
stringify, then insert thousands separators with the regex above. -/
def formatNumber (n : Int) : String :=
  groupDigits (toString n)

/-- `formatNumber` on an already-stringified input: for non-integer JS
numbers the code is exactly `num.toString()` followed by the same regex
replacement, so the grouping acts on the decimal string as-is. -/
def formatNumberRaw (s : String) : String :=
  groupDigits s

/-- Specification-side grouping: a comma goes after a character exactly
when the remaining suffix length is a positive multiple of three, i.e.
digits are grouped by three from the right. -/
def groupedRight : List Char → List Char
  | [] => []
  | c :: cs =>
    if (cs.length % 3 == 0) && (cs.length != 0) then
      c :: ',' :: groupedRight cs
    else
      c :: groupedRight cs

/- ===================== getProjectColor (src/index.js:187-198) ========== -/

/-- `getProjectColor(data)` (src/index.js:187-198, identical in
src/unnamed/part_000:196-207). `if (data.value)` is JS truthiness: absent
or zero value skips the bucket chain entirely. -/
def getProjectColor (d : PipelinerData) : String :=
  match d.value with
  | some v =>
    if v ≠ 0 then
      if 100000 < v then "dark-red"
      else if 50000 < v then "dark-orange"
      else if 25000 < v then "light-orange"
      else "light-green"
    else "light-blue"
  | none => "light-blue"

/- ===================== formatProjectName ============================== -/

/-- JS `Array.prototype.join(' - ')`. -/
def joinParts : List String → String
  | [] => ""
  | [p] => p
  | p :: rest => p ++ " - " ++ joinParts rest

/-- `formatProjectName(data)` (src/index.js:130-150): account name,
opportunity name, then `($<formatted value>)` when the value is truthy and
positive; joined with `" - "`, falling back to `"New Opportunity"` when
the joined string is empty (JS `||`). -/
def formatProjectName (d : PipelinerData) : String :=
  let parts : List String := []
  let parts := if strTruthy d.accountName then parts ++ [d.accountName.getD ""] else parts
  let parts := if strTruthy d.name then parts ++ [d.name.getD ""] else parts
  let parts := if valueTruthyPos d.value then parts ++ ["($" ++ formatNumber (d.value.getD 0) ++ ")"] else parts
  let joined := joinParts parts
  if joined == "" then "New Opportunity" else joined

/-- `formatProjectName(data)` in the panel-shop variant
(src/unnamed/part_000:129-154): a `[jobNumber]` bracket comes first and the
value figure has no dollar sign. -/
def formatProjectNameV2 (d : PipelinerData) : String :=
  let parts : List String := []
  let parts := if strTruthy d.jobNumber then parts ++ ["[" ++ d.jobNumber.getD "" ++ "]"] else parts
  let parts := if strTruthy d.accountName then parts ++ [d.accountName.getD ""] else parts
  let parts := if strTruthy d.name then parts ++ [d.name.getD ""] else parts
  let parts := if valueTruthyPos d.value then parts ++ ["(" ++ formatNumber (d.value.getD 0) ++ ")"] else parts
  let joined := joinParts parts
  if joined == "" then "New Opportunity" else joined

/-- Specification-side part list for the panel-shop name format: the four
optional parts in their fixed order. -/
def namePartsV2 (d : PipelinerData) : List String :=
  (if strTruthy d.jobNumber then ["[" ++ d.jobNumber.getD "" ++ "]"] else []) ++
  (if strTruthy d.accountName then [d.accountName.getD ""] else []) ++
  (if strTruthy d.name then [d.name.getD ""] else []) ++
  (if valueTruthyPos d.value then ["(" ++ formatNumber (d.value.getD 0) ++ ")"] else [])

/- ===================== outbound call model =========================== -/

/-- One outbound Asana REST call, recording the request fields the claims
observe. Request bodies also carry notes / workspace / team fields that no
claim mentions; they are omitted. -/
inductive ApiCall where
  | createProject (name color : String)
  | createSection (projectGid name : String)
  | listSections (projectGid : String)
  | createTask (projectGid : String) (sectionGid : Option String) (name : String)
  | updateProject (projectGid name : String)
deriving DecidableEq

/-- A section returned by the list-sections endpoint. -/
structure SectionInfo where
  name : String
  gid : String
deriving DecidableEq

/-- Oracle for the external API: the outcome of the `i`-th outbound call of
a delivery (calls are numbered in the order they are awaited). A successful
project creation yields the new project's `gid`; a successful
section listing yields the section array. -/
structure Env where
  projectRes : Nat → Except String String
  sectionRes : Nat → Except String Unit
  listRes : Nat → Except String (List SectionInfo)
  taskRes : Nat → Except String Unit
  updateRes : Nat → Except String Unit

/-- Mutable context of one webhook delivery: the index of the next outbound
call, the trace of calls attempted so far (never undone: there is no
rollback), and the console lines the claims observe (only the missing-token
warning is recorded; all other console output is claim-irrelevant). -/
structure MState where
  idx : Nat
  trace : List ApiCall
  logs : List String
deriving DecidableEq

/-- Attempt one section-creation POST: the call is always appended to the
trace; the oracle decides success or failure. -/
def attemptSection (gid nm : String) (env : Env) (s : MState) :
    Except String Unit × MState :=
  (env.sectionRes s.idx, ⟨s.idx + 1, s.trace ++ [ApiCall.createSection gid nm], s.logs⟩)

/-- Attempt one task-creation POST (`memberships` present iff a section id
was resolved). -/
def attemptTask (gid : String) (secGid : Option String) (nm : String) (env : Env) (s : MState) :
    Except String Unit × MState :=
  (env.taskRes s.idx, ⟨s.idx + 1, s.trace ++ [ApiCall.createTask gid secGid nm], s.logs⟩)

/-- Attempt the project-update PUT. -/
def attemptUpdate (gid nm : String) (env : Env) (s : MState) :
    Except String Unit × MState :=
  (env.updateRes s.idx, ⟨s.idx + 1, s.trace ++ [ApiCall.updateProject gid nm], s.logs⟩)

/- ===================== template catalogs (src/index.js) =============== -/

/-- The eight section names of `createProjectSections` (src/index.js:255-265). -/
def sectionTemplate : List String :=
  ["📋 Planning", "🔧 Engineering", "🏭 Manufacturing/Panel Build", "🧪 FAT/Testing",
   "🚚 Shipping", "⚙️ Commissioning", "✅ Complete", "📚 Documentation"]

/-- One entry of the static task catalog: task name and target section
name. The long `notes` literals are claim-irrelevant and omitted. -/
structure TaskTemplate where
  name : String
  sectionName : String
deriving DecidableEq

/-- The eight template tasks of `createInitialTasks` (src/index.js:293-334). -/
def taskTemplate : List TaskTemplate :=
  [⟨"📊 Initial Opportunity Review", "📋 Planning"⟩,
   ⟨"📝 Prepare Proposal/Quote", "📋 Planning"⟩,
   ⟨"🏗️ Engineering Design", "🔧 Engineering"⟩,
   ⟨"🔌 Panel Build", "🏭 Manufacturing/Panel Build"⟩,
   ⟨"🧪 Factory Acceptance Test (FAT)", "🧪 FAT/Testing"⟩,
   ⟨"🚚 Shipping Coordination", "🚚 Shipping"⟩,
   ⟨"⚙️ Site Commissioning", "⚙️ Commissioning"⟩,
   ⟨"📚 Documentation Package", "📚 Documentation"⟩]

/- ===================== Remote Project Gateway ========================= -/

/-- The `for...of` loop of `createProjectSections` (src/index.js:267-285):
each iteration awaits one POST inside its own `try`, whose `catch` only
logs, so the outcome is discarded and the loop continues. -/
def createProjectSectionsAux (gid : String) (env : Env) :
    List String → MState → Except String Unit × MState
  | [], s => (Except.ok (), s)
  | nm :: rest, s => createProjectSectionsAux gid env rest (attemptSection gid nm env s).2

/-- `createProjectSections(projectGid)` (src/index.js:255-286). -/
def createProjectSections (gid : String) (env : Env) (s : MState) :
    Except String Unit × MState :=
  createProjectSectionsAux gid env sectionTemplate s

/-- `getProjectSections(projectGid)` (src/index.js:379-394): on failure the
`catch` logs and returns `[]`. -/
def getProjectSections (gid : String) (env : Env) (s : MState) :
    Except String (List SectionInfo) × MState :=
  let s1 : MState := ⟨s.idx + 1, s.trace ++ [ApiCall.listSections gid], s.logs⟩
  match env.listRes s.idx with
  | Except.ok l => (Except.ok l, s1)
  | Except.error _ => (Except.ok [], s1)

/-- The `for...of` loop of `createInitialTasks` (src/index.js:339-375):
resolve the template's section name against the listed sections
(`sections.find`), POST the task, and swallow any per-task failure
(`catch` only logs). -/
def createInitialTasksAux (gid : String) (secs : List SectionInfo) (env : Env) :
    List TaskTemplate → MState → Except String Unit × MState
  | [], s => (Except.ok (), s)
  | t :: rest, s =>
    createInitialTasksAux gid secs env rest
      (attemptTask gid ((secs.find? (fun sc => sc.name == t.sectionName)).map SectionInfo.gid)
        t.name env s).2

/-- `createInitialTasks(projectGid, opportunityData)` (src/index.js:289-376). -/
def createInitialTasks (gid : String) (env : Env) (s : MState) :
    Except String Unit × MState :=
  match getProjectSections gid env s with
  | (Except.ok secs, s1) => createInitialTasksAux gid secs env taskTemplate s1
  | (Except.error e, s1) => (Except.error e, s1)

/-- The console line of src/index.js:203. -/
def noTokenWarning (nm : String) : String :=
  "WARNING: No Asana token configured. Would create project: " ++ nm

/-- `createAsanaProject(projectData)` (src/index.js:201-252): with no token
configured it logs the warning and returns `null` without any outbound
call; otherwise it POSTs the project, creates the sections inside the same
`try`, and on failure the `catch` logs and rethrows. -/
def createAsanaProject (cfg : Config) (nm col : String) (env : Env) (s : MState) :
    Except String (Option String) × MState :=
  if strTruthy cfg.accessToken then
    let s1 : MState := ⟨s.idx + 1, s.trace ++ [ApiCall.createProject nm col], s.logs⟩
    match env.projectRes s.idx with
    | Except.error e => (Except.error e, s1)
    | Except.ok gid =>
      match createProjectSections gid env s1 with
      | (Except.error e, s2) => (Except.error e, s2)
      | (Except.ok _, s2) => (Except.ok (some gid), s2)
  else
    (Except.ok none, ⟨s.idx, s.trace, s.logs ++ [noTokenWarning nm]⟩)

/-- `updateAsanaProject(projectGid, updates)` (src/index.js:397-422): the
`catch` only logs, so failures are swallowed. -/
def updateAsanaProject (gid nm : String) (env : Env) (s : MState) :
    Except String Unit × MState :=
  match attemptUpdate gid nm env s with
  | (_, s1) => (Except.ok (), s1)

/-- `createTaskInProject(projectGid, taskData)` (src/index.js:444-474): one
task POST without memberships; the `catch` only logs. -/
def createTaskInProject (gid nm : String) (env : Env) (s : MState) :
    Except String Unit × MState :=
  match attemptTask gid none nm env s with
  | (_, s1) => (Except.ok (), s1)

/- ===================== Mapping Store (stub) =========================== -/

/-- `findProjectByOpportunityId(opportunityId)` (src/index.js:506-515): the
stub always returns `null`. -/
def findProjectByOpportunityId (_opportunityId : Option String) : Option String :=
  none

/- ===================== handlers ======================================= -/

/-- `handleNewOpportunity(data)` (src/index.js:75-101): create the project;
if one was created, create the initial tasks and store the mapping
(`storeProjectMapping` only logs); the `catch` logs and rethrows. -/
def handleNewOpportunity (cfg : Config) (d : PipelinerData) (env : Env) (s : MState) :
    Except String Unit × MState :=
  match createAsanaProject cfg (formatProjectName d) (getProjectColor d) env s with
  | (Except.error e, s1) => (Except.error e, s1)
  | (Except.ok none, s1) => (Except.ok (), s1)
  | (Except.ok (some gid), s1) =>
    match createInitialTasks gid env s1 with
    | (Except.error e, s2) => (Except.error e, s2)
    | (Except.ok _, s2) => (Except.ok (), s2)

/-- `handleUpdatedOpportunity(data)` (src/index.js:104-127): look up the
mapping; update the project if found, otherwise fall back to
`handleNewOpportunity`; the `catch` only logs — it never rethrows. -/
def handleUpdatedOpportunity (cfg : Config) (d : PipelinerData) (env : Env) (s : MState) :
    Except String Unit × MState :=
  let r :=
    match findProjectByOpportunityId d.id with
    | some gid => updateAsanaProject gid (formatProjectName d) env s
    | none => handleNewOpportunity cfg d env s
  (Except.ok (), r.2)

/-- `handleActivity(action, data)` (src/index.js:425-441): with a related
opportunity id present, resolve the mapping and add a task to the resolved
project; with the stub mapping nothing is ever resolved. -/
def handleActivity (_action : String) (d : PipelinerData) (env : Env) (s : MState) :
    Except String Unit × MState :=
  if strTruthy d.relatedOpportunityId || strTruthy d.opportunityId then
    match findProjectByOpportunityId
        (if strTruthy d.relatedOpportunityId then d.relatedOpportunityId else d.opportunityId) with
    | some gid => createTaskInProject gid (d.subject.getD "New Activity") env s
    | none => (Except.ok (), s)
  else
    (Except.ok (), s)

/- ===================== HTTP dispatcher ================================ -/

/-- `entity === 'Opportunity' || entity === 'opportunity'` (src/index.js:47). -/
def isOpportunityEntity (entity : String) : Bool :=
  entity == "Opportunity" || entity == "opportunity"

/-- `entity === 'Activity' || entity === 'activity'` (src/index.js:53). -/
def isActivityEntity (entity : String) : Bool :=
  entity == "Activity" || entity == "activity"

/-- Whether a `(entity, action)` pair reaches any handler of the dispatch
table (src/index.js:47-57); the final `else` only logs
`Unhandled entity/action`. -/
def routedToHandler (entity action : String) : Bool :=
  (isOpportunityEntity entity &&
    (action == "create" || action == "created" || action == "update" || action == "updated")) ||
  isActivityEntity entity

/-- Outcome of one HTTP delivery: status code and `success` flag of the
JSON envelope, plus the outbound calls and modelled console lines. -/
structure DeliveryResult where
  status : Nat
  success : Bool
  trace : List ApiCall
  logs : List String
deriving DecidableEq

/-- `POST /webhook/pipeliner` (src/index.js:36-72): route on the
entity/action pair; any error escaping a handler produces
`500 {success:false}`, otherwise `200 {success:true}`. -/
def webhookPipeliner (cfg : Config) (env : Env) (entity action : String) (d : PipelinerData) :
    DeliveryResult :=
  let s0 : MState := ⟨0, [], []⟩
  let r : Except String Unit × MState :=
    if isOpportunityEntity entity && (action == "create" || action == "created") then
      handleNewOpportunity cfg d env s0
    else if isOpportunityEntity entity && (action == "update" || action == "updated") then
      handleUpdatedOpportunity cfg d env s0
    else if isActivityEntity entity then
      handleActivity action d env s0
    else
      (Except.ok (), s0)
  match r with
  | (Except.ok _, s) => ⟨200, true, s.trace, s.logs⟩
  | (Except.error _, s) => ⟨500, false, s.trace, s.logs⟩

/-- The hardcoded sample opportunity of `POST /test` (src/index.js:522-539).
The JS id embeds `Date.now()`; the id value influences nothing modelled. -/
def testData : PipelinerData :=
  { id := some "test-0",
    name := some "Equipment Upgrade Project",
    accountName := some "Sample Company",
    value := some 125000 }

/-- `POST /test` (src/index.js:518-553): run `handleNewOpportunity` on the
sample data; errors become `500`, success `200 {success:true}`. -/
def postTest (cfg : Config) (env : Env) : DeliveryResult :=
  match handleNewOpportunity cfg testData env ⟨0, [], []⟩ with
  | (Except.ok _, s) => ⟨200, true, s.trace, s.logs⟩
  | (Except.error _, s) => ⟨500, false, s.trace, s.logs⟩

/- ===================== concrete fixtures ============================== -/

/-- A configuration with an access token set. -/
def cfgTok : Config := { accessToken := some "tok" }

/-- A configuration with no access token. -/
def cfgNoTok : Config := { accessToken := none }

/-- Oracle where every outbound call succeeds (listing sections returns an
empty array). -/
def envAllOk : Env :=
  { projectRes := fun _ => Except.ok "G1",
    sectionRes := fun _ => Except.ok (),
    listRes := fun _ => Except.ok [],
    taskRes := fun _ => Except.ok (),
    updateRes := fun _ => Except.ok () }

/-- Oracle where project creation fails and everything else succeeds. -/
def envProjFail : Env :=
  { projectRes := fun _ => Except.error "boom",
    sectionRes := fun _ => Except.ok (),
    listRes := fun _ => Except.ok [],
    taskRes := fun _ => Except.ok (),
    updateRes := fun _ => Except.ok () }

/-- Oracle where listing sections fails and everything else succeeds. -/
def envListFail : Env :=
  { projectRes := fun _ => Except.ok "G1",
    sectionRes := fun _ => Except.ok (),
    listRes := fun _ => Except.error "down",
    taskRes := fun _ => Except.ok (),
    updateRes := fun _ => Except.ok () }


/- ===================== grouping lemmas ================================ -/

/-- Unfolding of `groupAux` at a cons cell. -/
theorem groupAux_cons (p c : Char) (cs : List Char) :
    groupAux p (c :: cs) =
      if (isWordChar p == isWordChar c) &&
          (decide (3 ≤ digitPrefixLen (c :: cs)) && (digitPrefixLen (c :: cs) % 3 == 0)) then
        ',' :: c :: groupAux c cs
      else c :: groupAux c cs := rfl

/-- Unfolding of `groupedRight` at a cons cell. -/
theorem groupedRight_cons (c : Char) (cs : List Char) :
    groupedRight (c :: cs) =
      if (cs.length % 3 == 0) && (cs.length != 0) then c :: ',' :: groupedRight cs
      else c :: groupedRight cs := rfl

/-- On an all-digit list the lookahead sees the whole remaining list. -/
theorem digitPrefixLen_of_digits :
    ∀ ds : List Char, (∀ c ∈ ds, c.isDigit = true) → digitPrefixLen ds = ds.length := by
  intro ds
  induction ds with
  | nil => intro _; rfl
  | cons c cs ih =>
    intro h
    simp [digitPrefixLen, h c (by simp), ih (fun x hx => h x (by simp [hx]))]

/-- A digit is a word character. -/
theorem isWordChar_of_digit (c : Char) (h : c.isDigit = true) : isWordChar c = true := by
  simp [isWordChar, Char.isAlphanum, h]

/-- Comma placement written from the head: a comma is inserted before a
character exactly when the suffix starting at it has length a positive
multiple of three. -/
def groupedFrom : List Char → List Char
  | [] => []
  | c :: cs =>
    (if decide (3 ≤ cs.length + 1) && ((cs.length + 1) % 3 == 0) then [','] else []) ++
      c :: groupedFrom cs

/-- Unfolding of `groupedFrom` at a cons cell. -/
theorem groupedFrom_cons (c : Char) (cs : List Char) :
    groupedFrom (c :: cs) =
      (if decide (3 ≤ cs.length + 1) && ((cs.length + 1) % 3 == 0) then [','] else []) ++
        c :: groupedFrom cs := rfl

/-- On an all-digit tail after a word character, the regex inserts exactly
the commas of `groupedFrom`. -/
theorem groupAux_eq_groupedFrom :
    ∀ ds : List Char, (∀ c ∈ ds, c.isDigit = true) →
      ∀ p : Char, isWordChar p = true → groupAux p ds = groupedFrom ds := by
  intro ds
  induction ds with
  | nil => intro _ p _; rfl
  | cons c cs ih =>
    intro hall p hp
    have hc : c.isDigit = true := hall c (by simp)
    have hcs : ∀ x ∈ cs, x.isDigit = true := fun x hx => hall x (by simp [hx])
    have hw := isWordChar_of_digit c hc
    have hd : digitPrefixLen (c :: cs) = cs.length + 1 := by
      simpa using digitPrefixLen_of_digits (c :: cs) hall
    rw [groupAux_cons, groupedFrom_cons, hd, hp, hw, ih hcs c hw]
    cases hX : (decide (3 ≤ cs.length + 1) && ((cs.length + 1) % 3 == 0)) <;> simp [hX]

/-- Head-side comma placement agrees with grouping by three from the right
once a head character is prepended. -/
theorem cons_groupedFrom_eq_groupedRight :
    ∀ (cs : List Char) (c : Char), c :: groupedFrom cs = groupedRight (c :: cs) := by
  intro cs
  induction cs with
  | nil => intro c; rfl
  | cons c' cs' ih =>
    intro c
    rw [groupedFrom_cons, groupedRight_cons, ← ih c']
    by_cases h : (cs'.length + 1) % 3 = 0
    · have h3 : 3 ≤ cs'.length + 1 := by omega
      have e1 : (decide (3 ≤ cs'.length + 1) && (((cs'.length + 1) % 3 == 0))) = true := by
        simp [h, h3]
      have e2 : (((c' :: cs').length % 3 == 0) && (((c' :: cs').length : Nat) != 0)) = true := by
        simp [h]
      rw [e1, e2]
      simp
    · have e1 : (decide (3 ≤ cs'.length + 1) && (((cs'.length + 1) % 3 == 0))) = false := by
        simp [h]
      have e2 : (((c' :: cs').length % 3 == 0) && (((c' :: cs').length : Nat) != 0)) = false := by
        simp [h]
      rw [e1, e2]
      simp

/-- On a pure digit string the regex replacement is exactly grouping by
three from the right. -/
theorem groupDigits_digits_eq_groupedRight (ds : List Char)
    (hall : ∀ c ∈ ds, c.isDigit = true) :
    groupDigits (String.mk ds) = String.mk (groupedRight ds) := by
  cases ds with
  | nil => rfl
  | cons c cs =>
    have hc : c.isDigit = true := hall c (by simp)
    have hw := isWordChar_of_digit c hc
    have hcs : ∀ x ∈ cs, x.isDigit = true := fun x hx => hall x (by simp [hx])
    show String.mk (c :: groupAux c cs) = String.mk (groupedRight (c :: cs))
    rw [groupAux_eq_groupedFrom cs hcs c hw, cons_groupedFrom_eq_groupedRight]

/-- A leading minus sign is a word boundary before the first digit, so the
grouping of the digit part is unchanged: negative numbers are handled by
plain pass-through of the sign. -/
theorem groupDigits_neg (c : Char) (cs : List Char) (hc : c.isDigit = true) :
    groupDigits (String.mk ('-' :: c :: cs)) = "-" ++ groupDigits (String.mk (c :: cs)) := by
  have hw := isWordChar_of_digit c hc
  show String.mk ('-' :: groupAux '-' (c :: cs)) = "-" ++ String.mk (c :: groupAux c cs)
  rw [groupAux_cons]
  have e1 : ((isWordChar '-' == isWordChar c) &&
      (decide (3 ≤ digitPrefixLen (c :: cs)) && (digitPrefixLen (c :: cs) % 3 == 0))) = false := by
    have : isWordChar '-' = false := by decide
    rw [this, hw]
    rfl
  rw [e1]
  rfl

/-- C9: `formatNumber` groups digits by three from the right —
`formatNumber 0 = "0"`, `formatNumber 999 = "999"`,
`formatNumber 1234567 = "1,234,567"` — with negative inputs handled as a
passed-through sign, and non-integer inputs handled as plain
stringification followed by the same grouping (`formatNumberRaw`); on any
pure digit string the replacement is exactly right-to-left grouping by
three. -/
theorem formatNumber_grouping :
    formatNumber 0 = "0" ∧ formatNumber 999 = "999" ∧ formatNumber 1234567 = "1,234,567" ∧
    formatNumber (-1234567) = "-1,234,567" ∧ formatNumber (-50) = "-50" ∧
    formatNumberRaw "1234.56" = "1,234.56" ∧
    (∀ ds : List Char, (∀ c ∈ ds, c.isDigit = true) →
      groupDigits (String.mk ds) = String.mk (groupedRight ds)) ∧
    (∀ (c : Char) (cs : List Char), c.isDigit = true →
      groupDigits (String.mk ('-' :: c :: cs)) = "-" ++ groupDigits (String.mk (c :: cs))) :=
  ⟨by decide, by decide, by decide, by decide, by decide, by decide,
   groupDigits_digits_eq_groupedRight, groupDigits_neg⟩

/-- Witness for C9: the grouping characterizations applied to the concrete
digit string "1234" and the concrete negative string "-5000". -/
theorem formatNumber_grouping_w :
    groupDigits (String.mk ['1', '2', '3', '4']) = String.mk (groupedRight ['1', '2', '3', '4']) ∧
    groupDigits (String.mk ['-', '5', '0', '0', '0']) =
      "-" ++ groupDigits (String.mk ['5', '0', '0', '0']) :=
  ⟨formatNumber_grouping.2.2.2.2.2.2.1 ['1', '2', '3', '4'] (by decide),
   formatNumber_grouping.2.2.2.2.2.2.2 '5' ['0', '0', '0'] (by decide)⟩

/-- C2 counterexample: the claim's final bucket "0 < value ≤ 25000 or value
absent/zero ↦ the low-value default" is not a single bucket of a step
function: a low positive value yields "light-green" while an absent value
yields "light-blue". -/
theorem projectColor_two_defaults_cx :
    ¬ (getProjectColor { value := some 10000 } = getProjectColor { value := none }) := by
  decide

/-- C2 (amended): the color is a step function of the value with buckets
>100000 ↦ "dark-red", (50000,100000] ↦ "dark-orange",
(25000,50000] ↦ "light-orange", (0,25000] ↦ "light-green" (the low-value
default for present values), and absent-or-zero value ↦ "light-blue" (the
no-value default). -/
theorem projectColor_buckets (d : PipelinerData) :
    (∀ v : Int, d.value = some v →
      ((100000 < v → getProjectColor d = "dark-red") ∧
       (50000 < v ∧ v ≤ 100000 → getProjectColor d = "dark-orange") ∧
       (25000 < v ∧ v ≤ 50000 → getProjectColor d = "light-orange") ∧
       (0 < v ∧ v ≤ 25000 → getProjectColor d = "light-green") ∧
       (v = 0 → getProjectColor d = "light-blue"))) ∧
    (d.value = none → getProjectColor d = "light-blue") := by
  constructor
  · intro v hv
    simp only [getProjectColor, hv]
    refine ⟨?_, ?_, ?_, ?_, ?_⟩ <;> intro h <;> split_ifs <;> first | rfl | omega
  · intro hv
    simp [getProjectColor, hv]

/-- Witness for C2: a 60000 value lands in the "dark-orange" bucket. -/
theorem projectColor_buckets_w :
    getProjectColor { value := some 60000 } = "dark-orange" :=
  ((projectColor_buckets { value := some 60000 }).1 60000 rfl).2.1 ⟨by decide, by decide⟩

/- ===================== name-format lemmas ============================= -/

/-- A string with a nonempty left part stays nonempty under append. -/
theorem string_append_ne_empty (x y : String) (hx : x ≠ "") : x ++ y ≠ "" := by
  intro h
  apply hx
  have hd : x.data ++ y.data = [] := by
    have h2 : (x ++ y).data = ("" : String).data := by rw [h]
    simpa [String.data_append] using h2
  cases x with
  | mk dx =>
    cases dx with
    | nil => rfl
    | cons a t => simp at hd

/-- Joining a list whose head is nonempty yields a nonempty string. -/
theorem joinParts_ne_empty (a : String) (rest : List String) (ha : a ≠ "") :
    joinParts (a :: rest) ≠ "" := by
  cases rest with
  | nil => simpa [joinParts] using ha
  | cons b t =>
    show a ++ " - " ++ joinParts (b :: t) ≠ ""
    exact string_append_ne_empty _ _ (string_append_ne_empty a " - " ha)

/-- Membership in an `if`-guarded singleton with a nonempty payload. -/
theorem mem_ite_singleton {b : Bool} {x p : String} (hx : x ≠ "")
    (hp : p ∈ (if b then [x] else ([] : List String))) : p ≠ "" := by
  cases b with
  | false => simp at hp
  | true => simp at hp; subst hp; exact hx

/-- Membership in an `if`-guarded singleton guarded by the truthiness of
its own payload. -/
theorem mem_ite_strTruthy (o : Option String) (p : String)
    (hp : p ∈ (if strTruthy o then [o.getD ""] else ([] : List String))) : p ≠ "" := by
  cases h : strTruthy o with
  | false => rw [h] at hp; simp at hp
  | true =>
    rw [h] at hp
    simp at hp
    subst hp
    cases o with
    | none => simp [strTruthy] at h
    | some s => simpa [strTruthy] using h

/-- Every part pushed by the panel-shop name format is a nonempty string. -/
theorem namePartsV2_mem_ne_empty (d : PipelinerData) : ∀ p ∈ namePartsV2 d, p ≠ "" := by
  intro p hp
  simp only [namePartsV2, List.mem_append] at hp
  rcases hp with ((hp | hp) | hp) | hp
  · exact mem_ite_singleton
      (string_append_ne_empty _ "]" (string_append_ne_empty "[" _ (by decide))) hp
  · exact mem_ite_strTruthy _ _ hp
  · exact mem_ite_strTruthy _ _ hp
  · exact mem_ite_singleton
      (string_append_ne_empty _ ")" (string_append_ne_empty "(" _ (by decide))) hp

/-- Pulling an appended element out of a JS-style conditional push. -/
theorem ite_push_append (b : Bool) (p : List String) (x : String) :
    (if b then p ++ [x] else p) = p ++ (if b then [x] else []) := by
  cases b <;> simp

/-- The JS `parts.join(' - ') || fallback` idiom agrees with testing the
part list for emptiness, provided no individual part is the empty string. -/
theorem joinParts_ite_fallback (L : List String) (hL : ∀ p ∈ L, p ≠ "") :
    (if joinParts L == "" then "New Opportunity" else joinParts L) =
      (if L = [] then "New Opportunity" else joinParts L) := by
  cases L with
  | nil => simp [joinParts]
  | cons a rest =>
    have hne := joinParts_ne_empty a rest (hL a (by simp))
    simp [hne]

/-- C8: the panel-shop project-name format is total in field presence; the
present parts — job-number bracket, account name, opportunity name,
parenthesised value figure when the value is positive — appear in that
fixed order joined by " - ", and with all parts absent the result is the
literal "New Opportunity". -/
theorem formatProjectNameV2_spec (d : PipelinerData) :
    (formatProjectNameV2 d =
      if namePartsV2 d = [] then "New Opportunity" else joinParts (namePartsV2 d)) ∧
    (strTruthy d.jobNumber = false → strTruthy d.accountName = false →
     strTruthy d.name = false → valueTruthyPos d.value = false →
     formatProjectNameV2 d = "New Opportunity") := by
  have hmain : formatProjectNameV2 d =
      if namePartsV2 d = [] then "New Opportunity" else joinParts (namePartsV2 d) := by
    have hmem := namePartsV2_mem_ne_empty d
    simp only [formatProjectNameV2, ite_push_append, List.nil_append]
    exact joinParts_ite_fallback _ hmem
  refine ⟨hmain, fun h1 h2 h3 h4 => ?_⟩
  rw [hmain]
  simp [namePartsV2, h1, h2, h3, h4]

/-- Witness for C8: the all-absent payload formats to the fallback literal. -/
theorem formatProjectNameV2_spec_w :
    formatProjectNameV2 {} = "New Opportunity" :=
  (formatProjectNameV2_spec {}).2 rfl rfl rfl rfl

/- ===================== orchestration lemmas =========================== -/

/-- The section loop never fails and attempts every template entry, for any
pattern of per-item outcomes: the oracle's answers are swallowed item by
item and only the trace grows. -/
theorem sectionsAux_eq (gid : String) (env : Env) :
    ∀ (names : List String) (s : MState),
      createProjectSectionsAux gid env names s =
        (Except.ok (), ⟨s.idx + names.length,
          s.trace ++ names.map (fun nm => ApiCall.createSection gid nm), s.logs⟩) := by
  intro names
  induction names with
  | nil => intro s; simp [createProjectSectionsAux]
  | cons nm rest ih =>
    intro s
    simp only [createProjectSectionsAux, attemptSection, ih, List.map_cons, List.length_cons]
    refine congrArg _ ?_
    simp only [MState.mk.injEq]
    refine ⟨by omega, by simp, trivial⟩

/-- The task loop never fails and attempts every template entry. -/
theorem tasksAux_eq (gid : String) (secs : List SectionInfo) (env : Env) :
    ∀ (ts : List TaskTemplate) (s : MState),
      createInitialTasksAux gid secs env ts s =
        (Except.ok (), ⟨s.idx + ts.length,
          s.trace ++ ts.map (fun t => ApiCall.createTask gid
            ((secs.find? (fun sc => sc.name == t.sectionName)).map SectionInfo.gid) t.name),
          s.logs⟩) := by
  intro ts
  induction ts with
  | nil => intro s; simp [createInitialTasksAux]
  | cons t rest ih =>
    intro s
    simp only [createInitialTasksAux, attemptTask, ih, List.map_cons, List.length_cons]
    refine congrArg _ ?_
    simp only [MState.mk.injEq]
    refine ⟨by omega, by simp, trivial⟩

/-- The sections a delivery works with when placing tasks: the oracle's
answer on success, the empty list on failure. -/
def exceptSecs : Except String (List SectionInfo) → List SectionInfo
  | Except.ok l => l
  | Except.error _ => []

/-- Listing sections never fails: a failed GET degrades to the empty list. -/
theorem getProjectSections_eq (gid : String) (env : Env) (s : MState) :
    getProjectSections gid env s =
      (Except.ok (exceptSecs (env.listRes s.idx)),
        ⟨s.idx + 1, s.trace ++ [ApiCall.listSections gid], s.logs⟩) := by
  cases h : env.listRes s.idx <;> simp [getProjectSections, exceptSecs, h]

/-- `createInitialTasks` never fails: it lists the sections (one call) and
then attempts every template task, resolving each task's section against
whatever the listing produced. -/
theorem createInitialTasks_eq (gid : String) (env : Env) (s : MState) :
    createInitialTasks gid env s =
      (Except.ok (), ⟨s.idx + 1 + taskTemplate.length,
        s.trace ++ [ApiCall.listSections gid] ++
          taskTemplate.map (fun t => ApiCall.createTask gid
            (((exceptSecs (env.listRes s.idx)).find? (fun sc => sc.name == t.sectionName)).map
              SectionInfo.gid)
            t.name),
        s.logs⟩) := by
  simp only [createInitialTasks, getProjectSections_eq, tasksAux_eq, List.append_assoc]

/-- With no token configured, `createAsanaProject` makes no call, logs the
warning and returns `none`. -/
theorem createAsanaProject_noToken (cfg : Config) (nm col : String) (env : Env) (s : MState)
    (h : strTruthy cfg.accessToken = false) :
    createAsanaProject cfg nm col env s =
      (Except.ok none, ⟨s.idx, s.trace, s.logs ++ [noTokenWarning nm]⟩) := by
  simp [createAsanaProject, h]

/-- With a token configured and a failing project POST, `createAsanaProject`
rethrows after recording the attempted call. -/
theorem createAsanaProject_fail (cfg : Config) (nm col : String) (env : Env) (s : MState)
    (e : String) (hTok : strTruthy cfg.accessToken = true)
    (h : env.projectRes s.idx = Except.error e) :
    createAsanaProject cfg nm col env s =
      (Except.error e, ⟨s.idx + 1, s.trace ++ [ApiCall.createProject nm col], s.logs⟩) := by
  simp [createAsanaProject, hTok, h]

/-- With a token configured and a successful project POST,
`createAsanaProject` creates all template sections and returns the gid. -/
theorem createAsanaProject_ok (cfg : Config) (nm col : String) (env : Env) (s : MState)
    (gid : String) (hTok : strTruthy cfg.accessToken = true)
    (h : env.projectRes s.idx = Except.ok gid) :
    createAsanaProject cfg nm col env s =
      (Except.ok (some gid), ⟨s.idx + 1 + sectionTemplate.length,
        s.trace ++ [ApiCall.createProject nm col] ++
          sectionTemplate.map (fun x => ApiCall.createSection gid x),
        s.logs⟩) := by
  simp only [createAsanaProject, hTok, if_true, h, createProjectSections, sectionsAux_eq,
    List.append_assoc]

/-- C6: for every project gid and every pattern of per-item outbound
failures (the oracle is arbitrary), the section loop and the task loop
swallow each item's failure independently and attempt every remaining
item — both loops always return success, with the full template recorded
in the trace. -/
theorem loops_isolate_item_failures (gid : String) (env : Env) (s : MState) :
    createProjectSections gid env s =
      (Except.ok (), ⟨s.idx + sectionTemplate.length,
        s.trace ++ sectionTemplate.map (fun nm => ApiCall.createSection gid nm), s.logs⟩) ∧
    createInitialTasks gid env s =
      (Except.ok (), ⟨s.idx + 1 + taskTemplate.length,
        s.trace ++ [ApiCall.listSections gid] ++
          taskTemplate.map (fun t => ApiCall.createTask gid
            (((exceptSecs (env.listRes s.idx)).find? (fun sc => sc.name == t.sectionName)).map
              SectionInfo.gid)
            t.name),
        s.logs⟩) :=
  ⟨sectionsAux_eq gid env sectionTemplate s, createInitialTasks_eq gid env s⟩

/-- C7: if the section listing fails, the gateway returns the empty list
instead of an error, and every template task is still created, attached to
the project but with no section membership. -/
theorem list_failure_tasks_unfiled (gid : String) (env : Env) (s : MState) (e : String)
    (h : env.listRes s.idx = Except.error e) :
    getProjectSections gid env s =
      (Except.ok [], ⟨s.idx + 1, s.trace ++ [ApiCall.listSections gid], s.logs⟩) ∧
    createInitialTasks gid env s =
      (Except.ok (), ⟨s.idx + 1 + taskTemplate.length,
        s.trace ++ [ApiCall.listSections gid] ++
          taskTemplate.map (fun t => ApiCall.createTask gid none t.name),
        s.logs⟩) := by
  constructor
  · simp [getProjectSections, h]
  · rw [createInitialTasks_eq]
    simp [h, exceptSecs]

/-- Witness for C7: the failing-listing oracle leaves all eight template
tasks unfiled. -/
theorem list_failure_tasks_unfiled_w :
    createInitialTasks "G1" envListFail ⟨0, [], []⟩ =
      (Except.ok (), ⟨1 + taskTemplate.length,
        [ApiCall.listSections "G1"] ++ taskTemplate.map (fun t => ApiCall.createTask "G1" none t.name),
        []⟩) := by
  have h := (list_failure_tasks_unfiled "G1" envListFail ⟨0, [], []⟩ "down" rfl).2
  simpa using h

/-- C5: with no access token configured, `createAsanaProject` returns
`none` without attempting any outbound call and logs the warning line
starting with "WARNING: No Asana token configured"; no section, task or
mapping step runs, and both a create delivery and `POST /test` respond
`200 {success:true}`. -/
theorem no_token_noop (cfg : Config) (env : Env)
    (h : strTruthy cfg.accessToken = false) :
    (∀ (nm col : String) (s : MState),
       createAsanaProject cfg nm col env s =
         (Except.ok none, ⟨s.idx, s.trace, s.logs ++ [noTokenWarning nm]⟩)) ∧
    postTest cfg env = ⟨200, true, [], [noTokenWarning (formatProjectName testData)]⟩ ∧
    (∀ d : PipelinerData,
       webhookPipeliner cfg env "Opportunity" "create" d =
         ⟨200, true, [], [noTokenWarning (formatProjectName d)]⟩) ∧
    (∀ nm : String, noTokenWarning nm =
       "WARNING: No Asana token configured" ++ (". Would create project: " ++ nm)) := by
  refine ⟨fun nm col s => createAsanaProject_noToken cfg nm col env s h, ?_, ?_, ?_⟩
  · simp [postTest, handleNewOpportunity, createAsanaProject_noToken cfg _ _ env _ h]
  · intro d
    simp [webhookPipeliner, isOpportunityEntity, handleNewOpportunity,
      createAsanaProject_noToken cfg _ _ env _ h]
  · intro nm
    rw [noTokenWarning, ← String.append_assoc]
    rfl

/-- Witness for C5: the no-token configuration makes `POST /test` succeed
with no outbound calls and the warning logged. -/
theorem no_token_noop_w :
    strTruthy cfgNoTok.accessToken = false ∧
    postTest cfgNoTok envAllOk = ⟨200, true, [], [noTokenWarning (formatProjectName testData)]⟩ :=
  ⟨rfl, (no_token_noop cfgNoTok envAllOk rfl).2.1⟩

/-- C4: the mapping-store lookup returns "not found" for every opportunity
identifier, so every Activity delivery resolves no project, makes no
outbound call, and still receives `200 {success:true}`. -/
theorem mapping_stub_drops_activities (cfg : Config) (env : Env) (entity action : String)
    (d : PipelinerData) (h : isActivityEntity entity = true) :
    (∀ oid : Option String, findProjectByOpportunityId oid = none) ∧
    webhookPipeliner cfg env entity action d = ⟨200, true, [], []⟩ := by
  refine ⟨fun _ => rfl, ?_⟩
  have he : entity = "Activity" ∨ entity = "activity" := by
    simpa [isActivityEntity] using h
  have hOpp : isOpportunityEntity entity = false := by
    rcases he with rfl | rfl <;> decide
  simp [webhookPipeliner, hOpp, h, handleActivity, findProjectByOpportunityId]

/-- Witness for C4: an Activity delivery with a related opportunity id is
silently dropped. -/
theorem mapping_stub_drops_activities_w :
    webhookPipeliner cfgTok envAllOk "Activity" "create"
        { relatedOpportunityId := some "OPP-1" } = ⟨200, true, [], []⟩ :=
  (mapping_stub_drops_activities cfgTok envAllOk "Activity" "create"
    { relatedOpportunityId := some "OPP-1" } (by decide)).2

/-- C1 counterexample: an Opportunity *update* delivery whose missing
mapping falls back to project creation, with the project POST failing,
still answers `200 {success:true}` — `handleUpdatedOpportunity`'s catch
only logs and never rethrows — contradicting the claimed 500 for every
delivery with a failing project-creation call. -/
theorem update_fallback_failure_returns_200_cx :
    (webhookPipeliner cfgTok envProjFail "Opportunity" "update" {}).status = 200 ∧
    (webhookPipeliner cfgTok envProjFail "Opportunity" "update" {}).success = true ∧
    (webhookPipeliner cfgTok envProjFail "Opportunity" "update" {}).trace ≠ [] := by
  refine ⟨?_, ?_, ?_⟩ <;> decide

/-- C1 (amended): for Opportunity *create* deliveries and `POST /test`, a
failing project-creation call propagates through `handleNewOpportunity` to
the dispatcher, producing a 500 error envelope; the attempted call stays in
the trace (no rollback). Update deliveries swallow the error instead. -/
theorem create_project_failure_500 (cfg : Config) (env : Env) (e : String)
    (hTok : strTruthy cfg.accessToken = true) (hFail : env.projectRes 0 = Except.error e) :
    (∀ (entity action : String) (d : PipelinerData),
       (entity = "Opportunity" ∨ entity = "opportunity") →
       (action = "create" ∨ action = "created") →
       webhookPipeliner cfg env entity action d =
         ⟨500, false, [ApiCall.createProject (formatProjectName d) (getProjectColor d)], []⟩) ∧
    postTest cfg env =
      ⟨500, false, [ApiCall.createProject (formatProjectName testData) (getProjectColor testData)],
        []⟩ := by
  have hNew : ∀ d : PipelinerData,
      handleNewOpportunity cfg d env ⟨0, [], []⟩ =
        (Except.error e, ⟨1, [ApiCall.createProject (formatProjectName d) (getProjectColor d)], []⟩) := by
    intro d
    rw [handleNewOpportunity, createAsanaProject_fail cfg _ _ env _ e hTok hFail]
    rfl
  constructor
  · rintro entity action d (rfl | rfl) (rfl | rfl) <;>
      simp [webhookPipeliner, isOpportunityEntity, hNew]
  · simp [postTest, hNew]

/-- Witness for C1: a concrete failing create delivery yields the 500 error
envelope with the attempted call in the trace. -/
theorem create_project_failure_500_w :
    webhookPipeliner cfgTok envProjFail "Opportunity" "create" testData =
      ⟨500, false, [ApiCall.createProject (formatProjectName testData) (getProjectColor testData)],
        []⟩ :=
  (create_project_failure_500 cfgTok envProjFail "boom" (by decide) rfl).1
    "Opportunity" "create" testData (Or.inl rfl) (Or.inl rfl)

/-- C10: the Opportunity-update handler wraps its body in a catch that only
logs, so every update/updated delivery answers `200 {success:true}`
whatever the oracle does — including a failing fallback project creation. -/
theorem update_delivery_always_200 (cfg : Config) (env : Env) (entity action : String)
    (d : PipelinerData)
    (hE : entity = "Opportunity" ∨ entity = "opportunity")
    (hA : action = "update" ∨ action = "updated") :
    (webhookPipeliner cfg env entity action d).status = 200 ∧
    (webhookPipeliner cfg env entity action d).success = true := by
  rcases hE with rfl | rfl <;> rcases hA with rfl | rfl <;>
    simp [webhookPipeliner, isOpportunityEntity, handleUpdatedOpportunity]

/-- Witness for C10: the failing-project oracle still gets a 200 on an
update delivery. -/
theorem update_delivery_always_200_w :
    (webhookPipeliner cfgTok envProjFail "opportunity" "updated" testData).status = 200 ∧
    (webhookPipeliner cfgTok envProjFail "opportunity" "updated" testData).success = true :=
  update_delivery_always_200 cfgTok envProjFail "opportunity" "updated" testData
    (Or.inr rfl) (Or.inr rfl)

/-- C3 counterexample: dispatch is not case-insensitive — the upper-cased
entity "OPPORTUNITY" with a create action produces no outbound call, while
the recognized casing "opportunity" produces calls under the same
all-success oracle. -/
theorem dispatch_casing_cx :
    (webhookPipeliner cfgTok envAllOk "OPPORTUNITY" "create" {}).trace = [] ∧
    (webhookPipeliner cfgTok envAllOk "opportunity" "create" {}).trace ≠ [] := by
  constructor <;> decide

/-- C3 (amended): the dispatcher matches the pair against a fixed table
recognizing exactly the two casings "Opportunity"/"opportunity" with
actions create/created/update/updated, and "Activity"/"activity" with any
action; every unmatched pair — including other casing variants — is only
logged, produces no outbound call, and still receives a
`200 {success:true}` envelope. -/
theorem unmatched_pair_is_noop (cfg : Config) (env : Env) (entity action : String)
    (d : PipelinerData) (h : routedToHandler entity action = false) :
    webhookPipeliner cfg env entity action d = ⟨200, true, [], []⟩ := by
  rw [routedToHandler] at h
  simp only [Bool.or_eq_false_iff, Bool.and_eq_false_iff] at h
  obtain ⟨h1, hAct⟩ := h
  have hc1 : (isOpportunityEntity entity && (action == "create" || action == "created")) = false := by
    rcases h1 with h1 | h1
    · simp [h1]
    · obtain ⟨⟨⟨ha, hb⟩, _⟩, _⟩ := h1
      simp [ha, hb]
  have hc2 : (isOpportunityEntity entity && (action == "update" || action == "updated")) = false := by
    rcases h1 with h1 | h1
    · simp [h1]
    · obtain ⟨⟨_, hc⟩, hd⟩ := h1
      simp [hc, hd]
  simp [webhookPipeliner, hc1, hc2, hAct]

/-- Witness for C3: the unrecognized entity "Contact" is a no-op success. -/
theorem unmatched_pair_is_noop_w :
    routedToHandler "Contact" "create" = false ∧
    webhookPipeliner cfgTok envAllOk "Contact" "create" {} = ⟨200, true, [], []⟩ :=
  ⟨by decide, unmatched_pair_is_noop cfgTok envAllOk "Contact" "create" {} (by decide)⟩
